import Mathlib

/-!
Shallow embedding of the fake OCPP 1.6 charging station
(`fake_charging_station/fcs_v16/connector.py`,
`fake_charging_station/fcs_v16/fcs_v16.py`,
`fake_charging_station/app.py`).

Python floats carrying energy and power are modelled as rationals;
Python dicts are modelled as insertion-ordered association lists.
Network sends are modelled as a trace of outbound messages; a CSMS
reply is passed in as an explicit oracle argument.  Operations that
can raise (missing dict key, index error on an empty list) return
`Option`.
-/

/-- OCPP 1.6 charge-point status enumeration. -/
inductive ChargePointStatus
  | available
  | preparing
  | charging
  | suspendedEVSE
  | suspendedEV
  | finishing
  | unavailable
  | reserved
  | faulted
deriving DecidableEq, Repr

/-- OCPP 1.6 availability type. -/
inductive AvailabilityType
  | operative
  | inoperative
deriving DecidableEq, Repr

/-- OCPP 1.6 charge-point error code (only NoError is ever assigned). -/
inductive ChargePointErrorCode
  | noError
  | otherError
deriving DecidableEq, Repr

/-- OCPP 1.6 remote start/stop status. -/
inductive RemoteStartStopStatus
  | accepted
  | rejected
deriving DecidableEq, Repr

/-- OCPP 1.6 charging-profile status. -/
inductive ChargingProfileStatus
  | accepted
  | rejected
deriving DecidableEq, Repr

/-- OCPP 1.6 stop reason (only EVDisconnected is ever passed). -/
inductive Reason
  | evDisconnected
  | otherReason
deriving DecidableEq, Repr

/-- The snapshot stored in `Connector.pending_stop_tx`: the Python dict
`{"id_tag": ..., "transaction_id": ..., "energy_import_register": ...}`
whose first two values may be `None`. -/
structure PendingStopTx where
  id_tag : Option String
  transaction_id : Option Int
  energy_import_register : ℚ
deriving DecidableEq, Repr

/-- The `Connector` object of `connector.py`. -/
structure Connector where
  id : Nat
  change_to_unavailable : Bool
  pending_stop_tx : Option PendingStopTx
  id_tag : Option String
  transaction_id : Option Int
  energy_import_register : ℚ
  power_offered : ℚ
  error_code : ChargePointErrorCode
  plugged_in : Bool
  already_stopped : Bool
  status : ChargePointStatus
deriving DecidableEq, Repr

/-- `Connector.__init__`. -/
def Connector.init (connector_id : Nat) : Connector where
  id := connector_id
  change_to_unavailable := false
  pending_stop_tx := none
  id_tag := none
  transaction_id := none
  energy_import_register := 0
  power_offered := 0
  error_code := ChargePointErrorCode.noError
  plugged_in := false
  already_stopped := true
  status := ChargePointStatus.available

/-- `Connector.reset(postpone_stop_tx)`.  The snapshot is captured
whenever `postpone_stop_tx` is true, from whatever values the
transaction fields currently hold. -/
def Connector.reset (c : Connector) (postpone_stop_tx : Bool) : Connector :=
  { c with
    pending_stop_tx :=
      if postpone_stop_tx then
        some ⟨c.id_tag, c.transaction_id, c.energy_import_register⟩
      else none
    id_tag := none
    transaction_id := none
    energy_import_register := 0
    power_offered := 0
    error_code := ChargePointErrorCode.noError
    plugged_in := false
    already_stopped := true
    status :=
      if c.change_to_unavailable then ChargePointStatus.unavailable
      else ChargePointStatus.available }

/-- `Connector.ready_to_charge()`. -/
def Connector.ready_to_charge (c : Connector) : Bool :=
  decide (c.status = ChargePointStatus.preparing) && c.plugged_in

/-- `Connector.consume_energy()`: the register moves by exactly
`power_offered`, whatever its sign. -/
def Connector.consume_energy (c : Connector) : Connector :=
  { c with energy_import_register := c.energy_import_register + c.power_offered }

/-- `Connector.update_status()`, returning (changed?, new connector).
The four branches are the source's `if`/`elif` chain in order; note the
final branch only excludes `power_offered == 0`, not `-1` or `-2`. -/
def Connector.update_status (c : Connector) : Bool × Connector :=
  if c.power_offered = 0 ∧ c.status ≠ ChargePointStatus.suspendedEVSE then
    (true, { c with status := ChargePointStatus.suspendedEVSE })
  else if c.power_offered = -1 ∧ c.status ≠ ChargePointStatus.suspendedEV then
    (true, { c with status := ChargePointStatus.suspendedEV })
  else if c.power_offered = -2 ∧ c.status ≠ ChargePointStatus.finishing then
    (true, { c with status := ChargePointStatus.finishing })
  else if c.power_offered ≠ 0 ∧ c.status ≠ ChargePointStatus.charging then
    (true, { c with status := ChargePointStatus.charging })
  else (false, c)

/-- `Connector.change_availability(availability_type)`, returning
(changed?, new connector). -/
def Connector.change_availability (c : Connector) (t : AvailabilityType) :
    Bool × Connector :=
  match t with
  | AvailabilityType.inoperative =>
      if c.status = ChargePointStatus.available then
        (true, { c with status := ChargePointStatus.unavailable })
      else
        (false, { c with change_to_unavailable := true })
  | AvailabilityType.operative =>
      if c.status = ChargePointStatus.unavailable then
        (true, { c with
                 status := ChargePointStatus.available
                 change_to_unavailable := false })
      else (false, c)

/-- A transaction is live on a connector iff a transaction id is set and
it has not already been stopped. -/
def liveTx (c : Connector) : Bool :=
  c.transaction_id.isSome && !c.already_stopped

/-- Python's `round` to an integer: round half to even, computed on the
exact numerator/denominator.  `Int.fdiv q.num q.den` is `⌊q⌋` and `r/d`
the fractional part, so the three branches compare the fraction with
1/2 and break ties towards the even floor or ceiling. -/
def pyRound (q : ℚ) : ℤ :=
  let d : ℤ := (q.den : ℤ)
  let f : ℤ := Int.fdiv q.num d
  let r : ℤ := q.num - f * d
  if 2 * r < d then f
  else if d < 2 * r then f + 1
  else if f % 2 = 0 then f else f + 1

section AssocList

variable {α β : Type} [DecidableEq α]

/-- Insertion-ordered dict write: update in place if the key exists,
else append (Python `d[k] = v`). -/
def aset : List (α × β) → α → β → List (α × β)
  | [], k, v => [(k, v)]
  | (a, b) :: t, k, v =>
      if a = k then (k, v) :: t else (a, b) :: aset t k v

/-- Dict read (`d.get(k)` / `d[k]` guarded by presence). -/
def aget : List (α × β) → α → Option β
  | [], _ => none
  | (a, b) :: t, k => if a = k then some b else aget t k

/-- Dict key-membership test (`k in d`). -/
def amem (l : List (α × β)) (k : α) : Bool :=
  (aget l k).isSome

/-- Dict deletion (`del d[k]`), removing the entry when present. -/
def aerase : List (α × β) → α → List (α × β)
  | [], _ => []
  | (a, b) :: t, k => if a = k then t else (a, b) :: aerase t k

end AssocList

/-- Payload of an outbound StopTransaction call, with the fields the
claims inspect.  `transaction_id` is `Option` because the source can
place a `None` there via an unchecked `cast`. -/
structure StopTxMsg where
  transaction_id : Option Int
  id_tag : Option String
  meter_stop : Int
  reason : Option Reason
deriving DecidableEq, Repr

/-- Outbound messages recorded in traces. -/
inductive OutMsg
  | stopTransaction (m : StopTxMsg)
  | statusNotification (cid : Nat) (st : ChargePointStatus) (ec : ChargePointErrorCode)
deriving DecidableEq, Repr

/-- One `{"key": ..., "readonly": ..., "value": ...}` configuration entry. -/
structure KeyValue where
  key : String
  readonly : Bool
  value : String
deriving DecidableEq, Repr

/-- An element of the `configuration_key` list in a GetConfiguration
reply.  The source's keyed branch appends a whole Python list as a
single element, which `nestedList` represents. -/
inductive ConfigurationEntry
  | entry (kv : KeyValue)
  | nestedList (l : List KeyValue)
deriving DecidableEq, Repr

/-- GetConfiguration reply payload. -/
structure GetConfigurationPayload where
  configuration_key : List ConfigurationEntry
  unknown_key : Option (List String)
deriving DecidableEq, Repr

/-- First period of a charging schedule
(`cs_charging_profiles["charging_schedule"]["charging_schedule_period"][i]`). -/
structure ChargingSchedulePeriod where
  limit : ℚ
deriving DecidableEq, Repr

/-- `cs_charging_profiles["charging_schedule"]`. -/
structure ChargingSchedule where
  charging_schedule_period : List ChargingSchedulePeriod
deriving DecidableEq, Repr

/-- The `cs_charging_profiles` argument of SetChargingProfile. -/
structure CsChargingProfiles where
  charging_schedule : ChargingSchedule
deriving DecidableEq, Repr

/-- The mutable state of `FakeChargingStation` touched by the claims. -/
structure FCS where
  connectors : List (Nat × Connector)
  configuration : List (String × String)
  transaction_connector : List (Int × Nat)
  tx_start_charge : Option Int
deriving DecidableEq, Repr

/-- `FakeChargingStation.__init__` for `number_of_connectors` connectors
(configuration seeded as in the source; `MeterValuesSampledData` holds a
list in Python, summarised here by its repr-irrelevant name). -/
def mkFCS (number_of_connectors : Nat) (tx_start_charge : Option Int) : FCS where
  connectors :=
    (List.range number_of_connectors).map (fun i => (i + 1, Connector.init (i + 1)))
  configuration :=
    [("HeartbeatInterval", "600"),
     ("MeterValuesSampledData", "Power.Offered,Power.Active.Import,Energy.Active.Import.Register,Voltage,SoC"),
     ("MeterValueSampleInterval", "10"),
     ("NumberOfConnectors", toString number_of_connectors),
     ("AuthorizeRemoteTxRequests", "false")]
  transaction_connector := []
  tx_start_charge := tx_start_charge

/-- The synchronous state change of `plug_in` (with no RFID): set
`plugged_in` and move the status to Preparing via `change_status`. -/
def FCS.plug_in_local (f : FCS) (cid : Nat) : Option FCS :=
  match aget f.connectors cid with
  | none => none
  | some c =>
      let c1 := { c with plugged_in := true, status := ChargePointStatus.preparing }
      some { f with connectors := aset f.connectors cid c1 }

/-- The state change of `send_authorize` when the CSMS accepts: record
the RFID as `id_tag` and move to Preparing via `change_status`. -/
def FCS.authorize_accepted (f : FCS) (cid : Nat) (rfid : String) : Option FCS :=
  match aget f.connectors cid with
  | none => none
  | some c =>
      let c1 := { c with id_tag := some rfid, status := ChargePointStatus.preparing }
      some { f with connectors := aset f.connectors cid c1 }

/-- `send_start_transaction` given the CSMS reply's `transaction_id`
(`respTxId`).  Python's `if not resp.transaction_id` treats both `None`
and `0` as absent; `if self.tx_start_charge` treats `None` and `0` as
unset. -/
def FCS.send_start_transaction (f : FCS) (cid : Nat) (respTxId : Option Int) :
    Option FCS :=
  match aget f.connectors cid with
  | none => none
  | some c =>
      match respTxId with
      | none => some f
      | some t =>
          if t = 0 then some f
          else
            let c1 := { c with transaction_id := some t, already_stopped := false }
            let c2 :=
              match f.tx_start_charge with
              | some w => if w ≠ 0 then (Connector.update_status { c1 with power_offered := (w : ℚ) }).2 else c1
              | none => c1
            some { f with
                   connectors := aset f.connectors cid c2
                   transaction_connector := aset f.transaction_connector t cid }

/-- `send_stop_transaction(connector_id, reason)`.  Returns the new
state and the outbound trace, or `none` when the source raises
(`KeyError` in `del self.transaction_connector[transaction_id]`, or a
missing connector). -/
def FCS.send_stop_transaction (f : FCS) (cid : Nat) (reason : Option Reason) :
    Option (FCS × List OutMsg) :=
  match aget f.connectors cid with
  | none => none
  | some c =>
      let src : Option Int × Option String × ℚ :=
        match c.pending_stop_tx with
        | none => (c.transaction_id, c.id_tag, c.energy_import_register)
        | some p => (p.transaction_id, p.id_tag, p.energy_import_register)
      match src.1 with
      | none => none
      | some t =>
          if amem f.transaction_connector t then
            let msg : StopTxMsg := ⟨some t, src.2.1, pyRound src.2.2, reason⟩
            let f1 := { f with transaction_connector := aerase f.transaction_connector t }
            match c.pending_stop_tx with
            | none =>
                let c1 := { c with already_stopped := true }
                let notif :=
                  if c1.status ≠ ChargePointStatus.finishing then
                    [OutMsg.statusNotification cid ChargePointStatus.finishing c1.error_code]
                  else []
                let c2 := { c1 with status := ChargePointStatus.finishing }
                some ({ f1 with connectors := aset f1.connectors cid c2 },
                      OutMsg.stopTransaction msg :: notif)
            | some _ =>
                let c2 := Connector.reset c false
                some ({ f1 with connectors := aset f1.connectors cid c2 },
                      [OutMsg.stopTransaction msg])
          else none

/-- `unplug(connector_id, stop_tx)`, returning the new state and the
outbound trace, or `none` when a nested call raises. -/
def FCS.unplug (f : FCS) (cid : Nat) (stop_tx : Bool) : Option (FCS × List OutMsg) :=
  match aget f.connectors cid with
  | none => none
  | some c =>
      if c.plugged_in = false then some (f, [])
      else
        let step1 : Option (FCS × List OutMsg) :=
          if !c.already_stopped && stop_tx then
            match FCS.send_stop_transaction f cid (some Reason.evDisconnected) with
            | none => none
            | some (f1, ms) =>
                match aget f1.connectors cid with
                | none => none
                | some c1 =>
                    some (f1, ms ++ [OutMsg.statusNotification cid c1.status c1.error_code])
          else some (f, [])
        match step1 with
        | none => none
        | some (f1, ms) =>
            match aget f1.connectors cid with
            | none => none
            | some c1 =>
                let c2 := Connector.reset c1 (!stop_tx)
                some ({ f1 with connectors := aset f1.connectors cid c2 },
                      ms ++ [OutMsg.statusNotification cid c2.status c2.error_code])

/-- `on_remote_start_transaction(id_tag, connector_id)`: with no
connector id the reply is Rejected and nothing is touched; otherwise the
connector's `id_tag` is recorded and the reply is Accepted. -/
def FCS.on_remote_start_transaction (f : FCS) (id_tag : String)
    (connector_id : Option Nat) : Option (FCS × RemoteStartStopStatus) :=
  match connector_id with
  | none => some (f, RemoteStartStopStatus.rejected)
  | some cid =>
      match aget f.connectors cid with
      | none => none
      | some c =>
          let c1 := { c with id_tag := some id_tag }
          some ({ f with connectors := aset f.connectors cid c1 },
                RemoteStartStopStatus.accepted)

/-- Whether `after_remote_start_transaction` invokes
`send_start_transaction`: the hook defaults a missing `connector_id` to
1 and fires iff that connector's `id_tag` is set. -/
def FCS.after_remote_start_fires (f : FCS) (connector_id : Option Nat) :
    Option Bool :=
  match aget f.connectors (connector_id.getD 1) with
  | none => none
  | some c => some c.id_tag.isSome

/-- `on_get_configuration(keys)`.  With `keys` present the source
computes set operations on the requested and available keys; the
intersection is rendered here in the configuration map's order and the
difference in (deduplicated) request order, and the entry list is
appended to `configuration_key` as one nested element, exactly as
`configuration_key=[configuration_keys]` does. -/
def FCS.on_get_configuration (f : FCS) (keys : Option (List String)) :
    GetConfigurationPayload :=
  match keys with
  | none =>
      ⟨f.configuration.map (fun kv => ConfigurationEntry.entry ⟨kv.1, false, kv.2⟩),
       none⟩
  | some ks =>
      let existing := f.configuration.filter (fun kv => ks.contains kv.1)
      let unknown := (ks.filter (fun k => !amem f.configuration k)).dedup
      ⟨[ConfigurationEntry.nestedList (existing.map (fun kv => ⟨kv.1, false, kv.2⟩))],
       some unknown⟩

/-- `on_set_charging_profile(connector_id, cs_charging_profiles)`:
Rejected without any state change when the connector is not ready to
charge, else `power_offered` becomes the first schedule period's limit;
`none` models the IndexError on an empty period list. -/
def FCS.on_set_charging_profile (f : FCS) (cid : Nat) (p : CsChargingProfiles) :
    Option (FCS × ChargingProfileStatus) :=
  match aget f.connectors cid with
  | none => none
  | some c =>
      if c.ready_to_charge = false then
        some (f, ChargingProfileStatus.rejected)
      else
        match p.charging_schedule.charging_schedule_period with
        | [] => none
        | per :: _ =>
            let c1 := { c with power_offered := per.limit }
            some ({ f with connectors := aset f.connectors cid c1 },
                  ChargingProfileStatus.accepted)

/-- `after_set_charging_profile(connector_id)`: run `update_status` on
the connector, reporting whether the status changed (a StatusNotification
is sent exactly then). -/
def FCS.after_set_charging_profile (f : FCS) (cid : Nat) : Option (FCS × Bool) :=
  match aget f.connectors cid with
  | none => none
  | some c =>
      let r := Connector.update_status c
      some ({ f with connectors := aset f.connectors cid r.2 }, r.1)

/-- The OCPP dispatch of a SetChargingProfile Call: the `on` handler
followed by the `after` hook (the library runs the hook regardless of
the reply status). -/
def FCS.scpDispatch (f : FCS) (cid : Nat) (p : CsChargingProfiles) :
    Option (FCS × ChargingProfileStatus × Bool) :=
  match FCS.on_set_charging_profile f cid p with
  | none => none
  | some (f1, st) =>
      match FCS.after_set_charging_profile f1 cid with
      | none => none
      | some (f2, changed) => some (f2, st, changed)

/-- Result of an HTTP control-surface endpoint. -/
inductive HttpResult
  | noContent
  | conflict (detail : String)
deriving DecidableEq, Repr

/-- The singleton profile built by the `set_charging_profile` endpoint
from its integer `limit` query parameter. -/
def profileOfLimit (limit : Int) : CsChargingProfiles :=
  ⟨⟨[⟨(limit : ℚ)⟩]⟩⟩

/-- The `set_charging_profile` endpoint of `app.py`: call the `on`
handler; on Rejected answer 409 Conflict without running the after-hook,
else run the after-hook and answer 204 No Content. -/
def set_charging_profile_endpoint (f : FCS) (cid : Nat) (limit : Int) :
    Option (FCS × HttpResult) :=
  match FCS.on_set_charging_profile f cid (profileOfLimit limit) with
  | none => none
  | some (f1, st) =>
      if st = ChargingProfileStatus.rejected then
        some (f1, HttpResult.conflict
          "Unable to set charging profile: connector not ready to charge")
      else
        match FCS.after_set_charging_profile f1 cid with
        | none => none
        | some (f2, _) => some (f2, HttpResult.noContent)

/-- One operation of the charging station, at the granularity of the
synchronous segments between suspension points: plugging in, an
accepted authorize, the dispatch of a SetChargingProfile Call (handler
plus after-hook), a bare `update_status`, and starting or stopping a
transaction. -/
inductive Step : FCS → FCS → Prop
  | plugIn (f f' : FCS) (cid : Nat) :
      FCS.plug_in_local f cid = some f' → Step f f'
  | authAccept (f f' : FCS) (cid : Nat) (rfid : String) :
      FCS.authorize_accepted f cid rfid = some f' → Step f f'
  | setProfile (f f' : FCS) (cid : Nat) (p : CsChargingProfiles)
      (st : ChargingProfileStatus) (changed : Bool) :
      FCS.scpDispatch f cid p = some (f', st, changed) → Step f f'
  | updateStatus (f f' : FCS) (cid : Nat) (c : Connector) :
      aget f.connectors cid = some c →
      f' = { f with connectors := aset f.connectors cid (Connector.update_status c).2 } →
      Step f f'
  | startTx (f f' : FCS) (cid : Nat) (respTxId : Option Int) :
      FCS.send_start_transaction f cid respTxId = some f' → Step f f'
  | stopTx (f f' : FCS) (cid : Nat) (reason : Option Reason) (ms : List OutMsg) :
      FCS.send_stop_transaction f cid reason = some (f', ms) → Step f f'

/-- States reachable from a freshly constructed single-connector
charging station. -/
inductive Reach : FCS → Prop
  | init : Reach (mkFCS 1 none)
  | step {f f' : FCS} : Reach f → Step f f' → Reach f'

/-- The transaction id that `send_stop_transaction` will use for the
index deletion: the snapshot's id when a snapshot exists, else the
connector's live id. -/
def effectiveTxId (c : Connector) : Option Int :=
  match c.pending_stop_tx with
  | none => c.transaction_id
  | some p => p.transaction_id

/-- A freshly constructed single-connector charging station. -/
def freshFCS : FCS := mkFCS 1 none

/-- Connector 1 after plugging in without an RFID: plugged, Preparing,
no transaction. -/
def prepConn : Connector :=
  { Connector.init 1 with plugged_in := true, status := ChargePointStatus.preparing }

/-- `freshFCS` after `plug_in(rfid=None, connector_id=1)`. -/
def prepFCS : FCS := { freshFCS with connectors := [(1, prepConn)] }

/-- Connector 1 of `prepFCS` after SetChargingProfile(limit=5) plus its
after-hook: Charging on offered power 5 with no transaction at all. -/
def chargingNoTxConn : Connector :=
  { Connector.init 1 with
    plugged_in := true
    power_offered := 5
    status := ChargePointStatus.charging }

/-- The reachable station whose connector is Charging with no live
transaction. -/
def chargingNoTxFCS : FCS := { freshFCS with connectors := [(1, chargingNoTxConn)] }

/-- A connector whose offered power is the SuspendedEV sentinel -1. -/
def minus1Conn : Connector := { Connector.init 1 with power_offered := -1 }

/-- The rational 123.4 (617/5), written as an explicit `Rat` literal so
that kernel evaluation does not have to normalise a division. -/
def q123p4 : ℚ := ⟨617, 5, by decide, by decide⟩

/-- A plugged connector in the middle of a live transaction 7 by user
"abc" with 123.4 Wh on the register. -/
def liveConn : Connector :=
  { Connector.init 1 with
    plugged_in := true
    already_stopped := false
    transaction_id := some 7
    id_tag := some "abc"
    energy_import_register := q123p4
    power_offered := 11
    status := ChargePointStatus.charging }

/-- A station carrying `liveConn` with transaction 7 in the index. -/
def liveFCS : FCS :=
  { freshFCS with connectors := [(1, liveConn)], transaction_connector := [(7, 1)] }

/-- A live transaction on a connector that is not plugged in (reachable
via `send_start_transaction` without a preceding plug-in). -/
def unpluggedLiveConn : Connector :=
  { Connector.init 1 with
    already_stopped := false
    transaction_id := some 7
    id_tag := some "abc"
    energy_import_register := q123p4 }

/-- A station carrying `unpluggedLiveConn` with transaction 7 indexed. -/
def unpluggedLiveFCS : FCS :=
  { freshFCS with connectors := [(1, unpluggedLiveConn)], transaction_connector := [(7, 1)] }

/-- `prepFCS` after `unplug(1, stop_tx=False)`: the snapshot was taken
although no transaction was live, so `pending_stop_tx` holds a dict
whose `transaction_id` is `None`. -/
def emptySnapFCS : FCS :=
  { freshFCS with connectors := [(1, Connector.reset prepConn true)] }

/-- A connector with a leftover `id_tag` from an earlier session. -/
def taggedConn : Connector := { Connector.init 1 with id_tag := some "old" }

/-- A station whose connector 1 is `taggedConn`. -/
def taggedFCS : FCS := { freshFCS with connectors := [(1, taggedConn)] }

/-- The round-trip behaviour claimed for `change_availability` starting
from Available: Inoperative then Operative both report a change and end
on Available. -/
def availRoundTrip (c : Connector) : Prop :=
  (Connector.change_availability c AvailabilityType.inoperative).1 = true ∧
  (Connector.change_availability
      (Connector.change_availability c AvailabilityType.inoperative).2
      AvailabilityType.operative).1 = true ∧
  (Connector.change_availability
      (Connector.change_availability c AvailabilityType.inoperative).2
      AvailabilityType.operative).2.status = ChargePointStatus.available

/-- The latch behaviour claimed for `change_availability` on a
non-Available connector: Inoperative returns false and latches, the next
`reset()` lands on Unavailable, and Operative then restores Available
and clears the latch. -/
def latchChain (c : Connector) : Prop :=
  (Connector.change_availability c AvailabilityType.inoperative).1 = false ∧
  (Connector.change_availability c AvailabilityType.inoperative).2.change_to_unavailable = true ∧
  (Connector.reset (Connector.change_availability c AvailabilityType.inoperative).2 false).status = ChargePointStatus.unavailable ∧
  (Connector.change_availability (Connector.reset (Connector.change_availability c AvailabilityType.inoperative).2 false) AvailabilityType.operative).1 = true ∧
  (Connector.change_availability (Connector.reset (Connector.change_availability c AvailabilityType.inoperative).2 false) AvailabilityType.operative).2.status = ChargePointStatus.available ∧
  (Connector.change_availability (Connector.reset (Connector.change_availability c AvailabilityType.inoperative).2 false) AvailabilityType.operative).2.change_to_unavailable = false

theorem aget_aset_self {α β : Type} [DecidableEq α] (l : List (α × β)) (k : α) (v : β) :
    aget (aset l k v) k = some v := by
  induction l with
  | nil => simp [aset, aget]
  | cons hd tl ih =>
      by_cases h : hd.1 = k <;> simp [aset, aget, h, ih]

theorem aset_aset {α β : Type} [DecidableEq α] (l : List (α × β)) (k : α) (v w : β) :
    aset (aset l k v) k w = aset l k w := by
  induction l with
  | nil => simp [aset]
  | cons hd tl ih =>
      by_cases h : hd.1 = k <;> simp [aset, h, ih]

/-- C1 counterexample: on a connector offering -1 W, `consume_energy`
does not add `max(power_offered, 0)` — it strictly decreases the
register, so the claimed monotonicity also fails. -/
theorem c1_consume_energy_counterexample :
    ¬ (Connector.consume_energy minus1Conn).energy_import_register
        = minus1Conn.energy_import_register + max minus1Conn.power_offered 0 ∧
    (Connector.consume_energy minus1Conn).energy_import_register
      < minus1Conn.energy_import_register := by
  constructor
  · intro h
    rw [max_eq_right (by decide : minus1Conn.power_offered ≤ 0)] at h
    simp [Connector.consume_energy, minus1Conn, Connector.init] at h
  · norm_num [Connector.consume_energy, minus1Conn, Connector.init]

/-- C1 amended: `consume_energy` adds exactly `power_offered` to the
register; the register is non-decreasing under a call only when the
offered power is non-negative. -/
theorem c1_consume_energy_amended (c : Connector) :
    (Connector.consume_energy c).energy_import_register
      = c.energy_import_register + c.power_offered ∧
    (0 ≤ c.power_offered →
      c.energy_import_register ≤ (Connector.consume_energy c).energy_import_register) := by
  refine ⟨rfl, fun h => ?_⟩
  simp only [Connector.consume_energy]
  linarith

/-- C1 witness: the amended theorem applied to a fresh connector. -/
theorem c1_consume_energy_witness :
    (Connector.init 1).energy_import_register
      ≤ (Connector.consume_energy (Connector.init 1)).energy_import_register :=
  (c1_consume_energy_amended (Connector.init 1)).2 (by decide)

/-- C4 counterexample: `reset(postpone_stop_tx=True)` on a connector
with no live transaction still captures a snapshot — `pending_stop_tx`
does not end up empty. -/
theorem c4_reset_counterexample :
    liveTx (Connector.init 1) = false ∧
    (Connector.reset (Connector.init 1) true).pending_stop_tx = some ⟨none, none, 0⟩ := by
  decide

/-- C4 amended: `reset(postpone_stop_tx)` captures the triplet whenever
`postpone_stop_tx` is true, live transaction or not; afterwards the
transaction fields are cleared, registers zeroed, the plug released,
`already_stopped` set, and the status is Unavailable exactly when the
latch was set. -/
theorem c4_reset_amended (c : Connector) (b : Bool) :
    ((Connector.reset c b).pending_stop_tx
      = if b then some ⟨c.id_tag, c.transaction_id, c.energy_import_register⟩ else none) ∧
    (Connector.reset c b).id_tag = none ∧
    (Connector.reset c b).transaction_id = none ∧
    (Connector.reset c b).energy_import_register = 0 ∧
    (Connector.reset c b).power_offered = 0 ∧
    (Connector.reset c b).plugged_in = false ∧
    (Connector.reset c b).already_stopped = true ∧
    ((Connector.reset c b).status
      = if c.change_to_unavailable then ChargePointStatus.unavailable
        else ChargePointStatus.available) := by
  cases b <;> simp [Connector.reset]

/-- C7: the code contradicts its own docstring.  With offered power -1,
the first `update_status` lands on SuspendedEV, but an immediate second
call reports a change and moves the status to Charging, because the
final `elif` only excludes power 0. -/
theorem c7_update_status_not_idempotent :
    (Connector.update_status minus1Conn).2.status = ChargePointStatus.suspendedEV ∧
    (Connector.update_status (Connector.update_status minus1Conn).2).1 = true ∧
    (Connector.update_status (Connector.update_status minus1Conn).2).2.status
      = ChargePointStatus.charging := by
  decide

/-- C8: availability round-trip and latch chain of
`change_availability` and `reset`. -/
theorem c8_change_availability (c d : Connector)
    (h1 : c.status = ChargePointStatus.available)
    (h2 : d.status ≠ ChargePointStatus.available) :
    availRoundTrip c ∧ latchChain d := by
  constructor
  · simp [availRoundTrip, Connector.change_availability, h1]
  · simp [latchChain, Connector.change_availability, Connector.reset, h2]

/-- C8 witness: the round trip on a fresh (Available) connector and the
latch chain on a Preparing connector. -/
theorem c8_change_availability_witness : availRoundTrip (Connector.init 1) ∧ latchChain prepConn :=
  c8_change_availability (Connector.init 1) prepConn rfl (by decide)

/-- C3: evaluating GetConfiguration at the failing input
keys=["HeartbeatInterval"].  The handler wraps the entry list in an
extra list (`configuration_key=[configuration_keys]`), so the reply is
a nested singleton instead of the flat entry list the claim (and the
handler's keys-absent branch) prescribe. -/
theorem c3_get_configuration_nested :
    FCS.on_get_configuration freshFCS (some ["HeartbeatInterval"])
      = ⟨[ConfigurationEntry.nestedList [⟨"HeartbeatInterval", false, "600"⟩]], some []⟩ ∧
    FCS.on_get_configuration freshFCS (some ["HeartbeatInterval"])
      ≠ ⟨[ConfigurationEntry.entry ⟨"HeartbeatInterval", false, "600"⟩], some []⟩ ∧
    (FCS.on_get_configuration freshFCS none).configuration_key
      = freshFCS.configuration.map (fun kv => ConfigurationEntry.entry ⟨kv.1, false, kv.2⟩) := by
  refine ⟨by decide, by decide, rfl⟩

/-- C9: a RemoteStartTransaction Call without a connector_id is answered
Rejected with no state change, yet the after-hook defaults the connector
to 1 and still fires `send_start_transaction` whenever connector 1's
id_tag is set. -/
theorem c9_remote_start_defaults (f : FCS) (tag : String) (c : Connector)
    (hc : aget f.connectors 1 = some c) (htag : c.id_tag.isSome = true) :
    FCS.on_remote_start_transaction f tag none = some (f, RemoteStartStopStatus.rejected) ∧
    FCS.after_remote_start_fires f none = some true := by
  refine ⟨rfl, ?_⟩
  simp [FCS.after_remote_start_fires, hc, htag]

/-- C9 witness: a station whose connector 1 kept an id_tag from an
earlier session. -/
theorem c9_remote_start_witness :
    FCS.on_remote_start_transaction taggedFCS "tag" none
      = some (taggedFCS, RemoteStartStopStatus.rejected) ∧
    FCS.after_remote_start_fires taggedFCS none = some true :=
  c9_remote_start_defaults taggedFCS "tag" taggedConn (by decide) (by decide)

/-- C10 counterexample: a snapshot alone does not protect the deletion.
`unplug(1, stop_tx=False)` on a plugged connector with no live
transaction captures a snapshot whose transaction_id is None, and
`send_stop_transaction` then fails at the index deletion even though
`pending_stop_tx` is set. -/
theorem c10_send_stop_counterexample :
    FCS.unplug prepFCS 1 false
      = some (emptySnapFCS,
              [OutMsg.statusNotification 1 ChargePointStatus.available ChargePointErrorCode.noError]) ∧
    (aget emptySnapFCS.connectors 1).map (fun c => c.pending_stop_tx.isSome) = some true ∧
    FCS.send_stop_transaction emptySnapFCS 1 none = none := by
  refine ⟨by decide, by decide, by decide⟩

/-- C10 amended: the deletion is safe exactly when the effective
transaction id (snapshot's if a snapshot exists, else the live one) is a
key of the index; with neither a transaction nor a snapshot the call
fails. -/
theorem c10_send_stop_amended (f g : FCS) (cid did : Nat) (c d : Connector) (t : Int)
    (hc : aget f.connectors cid = some c)
    (ht : effectiveTxId c = some t)
    (hidx : amem f.transaction_connector t = true)
    (hd : aget g.connectors did = some d)
    (hd1 : d.pending_stop_tx = none) (hd2 : d.transaction_id = none) :
    (FCS.send_stop_transaction f cid none).isSome = true ∧
    FCS.send_stop_transaction g did none = none := by
  constructor
  · cases hp : c.pending_stop_tx with
    | none =>
        have ht' : c.transaction_id = some t := by simpa [effectiveTxId, hp] using ht
        simp [FCS.send_stop_transaction, hc, hp, ht', hidx]
    | some p =>
        have ht' : p.transaction_id = some t := by simpa [effectiveTxId, hp] using ht
        simp [FCS.send_stop_transaction, hc, hp, ht', hidx]
  · simp [FCS.send_stop_transaction, hd, hd1, hd2]

/-- C10 witness: success on a live indexed transaction, failure on a
plugged connector with neither transaction nor snapshot. -/
theorem c10_send_stop_witness :
    (FCS.send_stop_transaction liveFCS 1 none).isSome = true ∧
    FCS.send_stop_transaction prepFCS 1 none = none :=
  c10_send_stop_amended liveFCS prepFCS 1 1 liveConn prepConn 7
    (by decide) (by decide) (by decide) (by decide) (by decide) (by decide)

/-- C2 counterexample: after plug_in(1) and SetChargingProfile(limit=5)
plus its after-hook — both operations on the claim's list — connector 1
is Charging although no transaction was ever started, refuting
`status = Charging ⇒ live transaction` on a reachable state. -/
theorem c2_charging_counterexample :
    Reach chargingNoTxFCS ∧
    aget chargingNoTxFCS.connectors 1 = some chargingNoTxConn ∧
    chargingNoTxConn.status = ChargePointStatus.charging ∧
    chargingNoTxConn.transaction_id = none ∧
    liveTx chargingNoTxConn = false := by
  refine ⟨?_, by decide, by decide, by decide, by decide⟩
  have s1 : Step freshFCS prepFCS := Step.plugIn _ _ 1 (by decide)
  have s2 : Step prepFCS chargingNoTxFCS :=
    Step.setProfile _ _ 1 (profileOfLimit 5) ChargingProfileStatus.accepted true (by decide)
  exact Reach.step (Reach.step Reach.init s1) s2

/-- C2 amended: Charging does not require a live transaction.  On any
ready-to-charge connector, the SetChargingProfile dispatch (handler plus
after-hook) with a positive first-period limit yields status Charging
and that offered power while leaving the transaction fields untouched. -/
theorem c2_charging_amended (f : FCS) (cid : Nat) (c : Connector) (p : CsChargingProfiles)
    (per : ChargingSchedulePeriod) (rest : List ChargingSchedulePeriod)
    (hc : aget f.connectors cid = some c)
    (hready : c.ready_to_charge = true)
    (hp : p.charging_schedule.charging_schedule_period = per :: rest)
    (hpos : 0 < per.limit) :
    FCS.scpDispatch f cid p
      = some ({ f with connectors := aset f.connectors cid { c with power_offered := per.limit, status := ChargePointStatus.charging } },
              ChargingProfileStatus.accepted, true) := by
  have hst : c.status = ChargePointStatus.preparing := by
    have h := hready
    unfold Connector.ready_to_charge at h
    simp only [Bool.and_eq_true, decide_eq_true_eq] at h
    exact h.1
  have h0 : per.limit ≠ 0 := ne_of_gt hpos
  have h1 : ¬ (per.limit = -1) := by intro h; rw [h] at hpos; norm_num at hpos
  have h2 : ¬ (per.limit = -2) := by intro h; rw [h] at hpos; norm_num at hpos
  simp [FCS.scpDispatch, FCS.on_set_charging_profile, FCS.after_set_charging_profile,
    hc, hready, hp, hst, h0, h1, h2, Connector.update_status, aget_aset_self, aset_aset]

/-- C2 witness: the amended theorem applied to the prepared station and
limit 5 reproduces the reachable Charging-without-transaction state. -/
theorem c2_charging_witness :
    FCS.scpDispatch prepFCS 1 (profileOfLimit 5)
      = some (chargingNoTxFCS, ChargingProfileStatus.accepted, true) := by
  have h := c2_charging_amended prepFCS 1 prepConn (profileOfLimit 5) ⟨((5 : Int) : ℚ)⟩ []
    (by decide) (by decide) rfl (by decide)
  exact h.trans (by decide)

/-- C5 counterexample: on a live transaction whose connector is not
plugged in (reachable, since `send_start_transaction` never checks the
plug), `unplug(1, stop_tx=False)` returns immediately: nothing is reset
and no snapshot is captured, contrary to the claim's unconditional
description for connectors carrying a live transaction. -/
theorem c5_unplug_counterexample :
    liveTx unpluggedLiveConn = true ∧
    FCS.unplug unpluggedLiveFCS 1 false = some (unpluggedLiveFCS, []) ∧
    (aget unpluggedLiveFCS.connectors 1).map (fun c => c.pending_stop_tx) = some none := by
  refine ⟨by decide, by decide, by decide⟩

/-- C5 amended: for a PLUGGED connector with a live indexed transaction,
`unplug(cid, stop_tx=False)` sends no StopTransaction and resets the
connector except for the snapshot triplet in `pending_stop_tx`, and the
subsequent `send_stop_transaction(cid)` transmits exactly the snapshot
values with the rounded register as `meter_stop`, removes the
transaction from the index, and fully resets the connector. -/
theorem c5_unplug_postpone (f : FCS) (cid : Nat) (c : Connector) (t : Int)
    (hc : aget f.connectors cid = some c) (hplug : c.plugged_in = true)
    (hlive : liveTx c = true) (ht : c.transaction_id = some t)
    (hidx : amem f.transaction_connector t = true) :
    FCS.unplug f cid false
      = some ({ f with connectors := aset f.connectors cid (Connector.reset c true) },
              [OutMsg.statusNotification cid (Connector.reset c true).status (Connector.reset c true).error_code]) ∧
    (Connector.reset c true).pending_stop_tx = some ⟨c.id_tag, some t, c.energy_import_register⟩ ∧
    FCS.send_stop_transaction { f with connectors := aset f.connectors cid (Connector.reset c true) } cid none
      = some ({ f with connectors := aset f.connectors cid (Connector.reset (Connector.reset c true) false), transaction_connector := aerase f.transaction_connector t },
              [OutMsg.stopTransaction ⟨some t, c.id_tag, pyRound c.energy_import_register, none⟩]) ∧
    (Connector.reset (Connector.reset c true) false).pending_stop_tx = none := by
  refine ⟨?_, ?_, ?_, ?_⟩
  · simp [FCS.unplug, hc, hplug]
  · simp [Connector.reset, ht]
  · simp [FCS.send_stop_transaction, aget_aset_self, Connector.reset, ht, hidx, aset_aset]
  · simp [Connector.reset]

/-- C5 witness: the S6 scenario — live transaction 7 of "abc" with
123.4 Wh; after the postponing unplug, `send_stop_transaction` sends
meter_stop 123. -/
theorem c5_unplug_witness :
    FCS.send_stop_transaction { liveFCS with connectors := aset liveFCS.connectors 1 (Connector.reset liveConn true) } 1 none
      = some ({ liveFCS with connectors := aset liveFCS.connectors 1 (Connector.reset (Connector.reset liveConn true) false), transaction_connector := aerase liveFCS.transaction_connector 7 },
              [OutMsg.stopTransaction ⟨some 7, some "abc", 123, none⟩]) := by
  have h := c5_unplug_postpone liveFCS 1 liveConn 7
    (by decide) (by decide) (by decide) (by decide) (by decide)
  exact h.2.2.1.trans (by decide)

/-- C6: a SetChargingProfile on a connector that is not ready to charge
is Rejected with no state change and surfaces as HTTP 409 Conflict with
the fixed detail string; on a ready connector the handler installs the
first period's limit as offered power and replies Accepted. -/
theorem c6_scp_endpoint (f g : FCS) (cid did : Nat) (c d : Connector) (limit : Int)
    (p : CsChargingProfiles) (per : ChargingSchedulePeriod) (rest : List ChargingSchedulePeriod)
    (hc : aget f.connectors cid = some c) (hnr : c.ready_to_charge = false)
    (hd : aget g.connectors did = some d) (hr : d.ready_to_charge = true)
    (hp : p.charging_schedule.charging_schedule_period = per :: rest) :
    FCS.on_set_charging_profile f cid p = some (f, ChargingProfileStatus.rejected) ∧
    set_charging_profile_endpoint f cid limit
      = some (f, HttpResult.conflict "Unable to set charging profile: connector not ready to charge") ∧
    FCS.on_set_charging_profile g did p
      = some ({ g with connectors := aset g.connectors did { d with power_offered := per.limit } }, ChargingProfileStatus.accepted) := by
  refine ⟨?_, ?_, ?_⟩
  · simp [FCS.on_set_charging_profile, hc, hnr]
  · simp [set_charging_profile_endpoint, FCS.on_set_charging_profile, hc, hnr]
  · simp [FCS.on_set_charging_profile, hd, hr, hp]

/-- C6 witness: the S1 scenario on a fresh station (409 with the fixed
detail) and the accepting case on a prepared connector with limit 99. -/
theorem c6_scp_witness :
    set_charging_profile_endpoint freshFCS 1 99
      = some (freshFCS, HttpResult.conflict "Unable to set charging profile: connector not ready to charge") ∧
    FCS.on_set_charging_profile prepFCS 1 (profileOfLimit 99)
      = some ({ prepFCS with connectors := aset prepFCS.connectors 1 { prepConn with power_offered := ((99 : Int) : ℚ) } }, ChargingProfileStatus.accepted) := by
  have h := c6_scp_endpoint freshFCS prepFCS 1 1 (Connector.init 1) prepConn 99
    (profileOfLimit 99) ⟨((99 : Int) : ℚ)⟩ []
    (by decide) (by decide) (by decide) (by decide) rfl
  exact ⟨h.2.1, h.2.2⟩
